import Mathlib

/-!
Shallow embedding of the shape-detector decision core
(`src/shape_detector.py` and `src/shape_detector_web.py`).

Time stamps are modelled as rationals (`ℚ`), shape labels as the Python
strings the code passes around.  The actuator busy deadline
(`arduino_busy_until`) is a single rational.  Transport faults are
modelled by an explicit outcome parameter: `SendOutcome.ok` means every
serial operation inside the `try` block succeeds, `SendOutcome.writeError`
means one of the operations before the busy-deadline assignment raises,
so control jumps to the `except` branch.
-/

/-- Python `deque(maxlen := W).append x`: append on the right, evicting from
the left when the length would exceed `maxlen`. -/
def dequeAppend {α : Type} (maxlen : Nat) (l : List α) (x : α) : List α :=
  if (l ++ [x]).length > maxlen then (l ++ [x]).drop ((l ++ [x]).length - maxlen)
  else l ++ [x]

/-- Python list slice `l[-n:]` — the last `n` elements, except that `l[-0:]`
is the whole list. -/
def pyLastSlice {α : Type} (l : List α) (n : Nat) : List α :=
  if n = 0 then l else l.drop (l.length - n)

/-- State of `DetectionStabilizer` (identical in both source files):
window parameters, the deque of recent labels, the last confirmed label
(`None` initially) and the confirmation timestamp (`0` initially). -/
structure DetectionStabilizer where
  window_size : Nat
  threshold : Nat
  recent_detections : List String
  last_confirmed : Option String
  confirmation_time : ℚ
  deriving Repr, DecidableEq

namespace DetectionStabilizer

/-- `DetectionStabilizer.__init__`: empty window, `last_confirmed = None`,
`confirmation_time = 0`. -/
def mkFresh (window_size threshold : Nat) : DetectionStabilizer :=
  { window_size := window_size
    threshold := threshold
    recent_detections := []
    last_confirmed := none
    confirmation_time := 0 }

end DetectionStabilizer

/-- `DetectionStabilizer.add_detection(detection)` at time `current_time`:
append to the window; refuse to confirm the same shape within 6 seconds of
its previous confirmation; otherwise confirm when the window holds at least
`threshold` entries and the trailing `threshold` entries contain `detection`
at least `threshold` times.  Returns the new state and the Python pair
`(is_stable, confirmed_shape)`. -/
def add_detection (s : DetectionStabilizer) (detection : String)
    (current_time : ℚ) : DetectionStabilizer × (Bool × Option String) :=
  let s1 := { s with
    recent_detections := dequeAppend s.window_size s.recent_detections detection }
  if s1.last_confirmed = some detection ∧ current_time - s1.confirmation_time < 6 then
    (s1, (false, none))
  else if s1.recent_detections.length ≥ s1.threshold ∧
      (pyLastSlice s1.recent_detections s1.threshold).count detection ≥ s1.threshold then
    ({ s1 with last_confirmed := some detection, confirmation_time := current_time },
      (true, some detection))
  else
    (s1, (false, none))

/-- `DetectionStabilizer.reset()`: `self.recent_detections.clear()` — only the
window is cleared. -/
def DetectionStabilizer.reset (s : DetectionStabilizer) : DetectionStabilizer :=
  { s with recent_detections := [] }

/-- Outcome of the serial operations inside `send_to_arduino_simple`'s `try`
block: either they all succeed, or one raises before `arduino_busy_until`
is assigned. -/
inductive SendOutcome where
  | ok
  | writeError
  deriving Repr, DecidableEq

/-- `send_to_arduino_simple(shape)` from `src/shape_detector.py` (and the
connected path of the web variant), acting on the `arduino_busy_until`
global at time `now`.  On success the deadline becomes `now + 10` for a
circle and `now + 20` otherwise and the function returns `True`; a raised
transport error reaches the `except` branch, which returns `False` with the
deadline untouched. -/
def send_to_arduino_simple (shape : String) (now : ℚ) (transport : SendOutcome)
    (busy_until : ℚ) : ℚ × Bool :=
  match transport with
  | .writeError => (busy_until, false)
  | .ok =>
    let processing_time : ℚ := if shape = "circle" then 10 else 20
    (now + processing_time, true)

/-- `send_to_arduino_simple(shape)` from `src/shape_detector_web.py`: when
`serial_connected` is false (or `arduino is None`) it prints a simulation
notice and returns `True` immediately, touching nothing; otherwise it runs
the same body as the non-web variant. -/
def send_to_arduino_simple_web (serial_connected : Bool) (shape : String)
    (now : ℚ) (transport : SendOutcome) (busy_until : ℚ) : ℚ × Bool :=
  if serial_connected = false then (busy_until, true)
  else send_to_arduino_simple shape now transport busy_until

/-- `is_arduino_ready()`: `current_time >= arduino_busy_until`. -/
def is_arduino_ready (busy_until now : ℚ) : Bool :=
  decide (busy_until ≤ now)

/-- One iteration of the `while arduino.in_waiting > 0` loop in
`read_arduino_messages`.  The source decodes each raw line and strips its
surrounding whitespace before inspecting it; `msg` here is that
already-stripped text.  An empty result is ignored; an exact `"DONE"` or
`"READY"` resets `arduino_busy_until` to `0`; every other line (including
the `"detected - processing"` notice) leaves state alone. -/
def processArduinoLine (busy_until : ℚ) (msg : String) : ℚ :=
  if msg = "" then busy_until
  else if msg = "DONE" then 0
  else if msg = "READY" then 0
  else busy_until

/-- `read_arduino_messages()`: drain all currently buffered inbound lines
(already decoded and stripped) in order, folding `processArduinoLine` over
them. -/
def read_arduino_messages (busy_until : ℚ) (lines : List String) : ℚ :=
  lines.foldl processArduinoLine busy_until

/-- The scalar descriptors `classify_shape_optimized` derives from a contour
before its rule cascade runs.  The cv2 derivation itself is an external
collaborator; the cascade consumes exactly these fields. -/
structure ShapeDescriptors where
  area : ℚ
  perimeter : ℚ
  aspect_ratio : ℚ
  circularity : ℚ
  extent : ℚ
  solidity : ℚ
  vertices : Nat
  deriving Repr, DecidableEq

/-- The rule cascade of `classify_shape_optimized` (identical in both source
files), as a first-match chain over the derived descriptors.  The
square/rectangle block and the final `vertices <= 4` block are Python
`if/elif` chains that fall through when no branch fires; the chain below
flattens them, preserving evaluation order. -/
def classify_shape_optimized (d : ShapeDescriptors) : String :=
  if d.perimeter = 0 ∨ d.area < 2500 then "unknown"
  else if d.extent < 1/4 ∨ d.solidity < 7/10 then "unknown"
  else if d.vertices = 3 ∧ 3/10 ≤ d.extent ∧ d.extent ≤ 85/100 ∧
      2/5 ≤ d.aspect_ratio ∧ d.aspect_ratio ≤ 2 then "triangle"
  else if d.vertices ≤ 4 ∧ d.circularity < 3/5 ∧ d.solidity > 4/5 ∧
      2/5 ≤ d.aspect_ratio ∧ d.aspect_ratio ≤ 9/5 ∧ d.extent < 7/10 then "triangle"
  else if d.vertices = 4 ∧ 3/5 ≤ d.extent ∧ d.extent ≤ 95/100 ∧
      3/4 ≤ d.aspect_ratio ∧ d.aspect_ratio ≤ 135/100 then "square"
  else if d.vertices = 4 ∧ 3/5 ≤ d.extent ∧ d.extent ≤ 95/100 ∧
      2/5 ≤ d.aspect_ratio ∧ d.aspect_ratio ≤ 5/2 then "rectangle"
  else if 4/5 ≤ d.aspect_ratio ∧ d.aspect_ratio ≤ 125/100 ∧
      d.extent > 7/10 ∧ d.circularity < 4/5 then "square"
  else if (d.vertices ≥ 6 ∨ d.circularity > 7/10) ∧
      d.circularity > 3/5 ∧ d.solidity > 4/5 then "circle"
  else if d.circularity > 3/4 then "circle"
  else if d.vertices ≤ 4 ∧ d.circularity < 1/2 ∧ d.extent < 7/10 then "triangle"
  else if d.vertices ≤ 4 ∧ 7/10 ≤ d.aspect_ratio ∧ d.aspect_ratio ≤ 13/10 ∧
      d.extent > 3/5 then "square"
  else "unknown"

/-- The mutable globals of `src/shape_detector_web.py` that the detection
loop and the dashboard handlers touch: the three `shape_counts` entries,
`current_shape`, the stabilizer, `arduino_busy_until` and
`last_detection_time`. -/
structure WebState where
  circle_count : Nat
  square_count : Nat
  triangle_count : Nat
  current_shape : String
  stab : DetectionStabilizer
  arduino_busy_until : ℚ
  last_detection_time : ℚ
  deriving Repr, DecidableEq

/-- `shape_counts[shape]` (0 for a key outside the dict). -/
def getCount (st : WebState) (shape : String) : Nat :=
  if shape = "circle" then st.circle_count
  else if shape = "square" then st.square_count
  else if shape = "triangle" then st.triangle_count
  else 0

/-- `update_shape_count(shape)`: if the label is a key of `shape_counts`,
increment its tally and record it as `current_shape`; otherwise do
nothing. -/
def update_shape_count (st : WebState) (shape : String) : WebState :=
  if shape = "circle" ∨ shape = "square" ∨ shape = "triangle" then
    { st with
      circle_count := if shape = "circle" then st.circle_count + 1 else st.circle_count
      square_count := if shape = "square" then st.square_count + 1 else st.square_count
      triangle_count := if shape = "triangle" then st.triangle_count + 1 else st.triangle_count
      current_shape := shape }
  else st

/-- The body `detection_loop` runs once the stabilizer reports a stable
detection (`src/shape_detector_web.py` lines 349–376): update the dashboard
count FIRST, then attempt the send, and only on send success reset the
stabilizer window and bump `last_detection_time`. -/
def confirmed_branch (st1 : WebState) (confirmed : String) (now : ℚ)
    (serial_connected : Bool) (transport : SendOutcome) : WebState :=
  let st2 := update_shape_count st1 confirmed
  let sendR := send_to_arduino_simple_web serial_connected confirmed now
    transport st2.arduino_busy_until
  let st3 := { st2 with arduino_busy_until := sendR.1 }
  if sendR.2 then
    { st3 with stab := st3.stab.reset, last_detection_time := now }
  else st3

/-- The confirmed-detection branch of `detection_loop` in
`src/shape_detector_web.py` (lines 345–376), given the label the classifier
produced for this tick: if it is one of the three tracked shapes, feed it to
the stabilizer; on a stable confirmation run `confirmed_branch`. -/
def detection_tick (st : WebState) (shape : String) (now : ℚ)
    (serial_connected : Bool) (transport : SendOutcome) : WebState :=
  if shape = "circle" ∨ shape = "triangle" ∨ shape = "square" then
    let r := add_detection st.stab shape now
    let st1 := { st with stab := r.1 }
    match r.2 with
    | (true, some confirmed) =>
      confirmed_branch st1 confirmed now serial_connected transport
    | _ => st1
  else st

/-- The `reset_counts` socket handler: zero all three counts, set
`current_shape` to `"none"`, force `arduino_busy_until = 0` and clear the
stabilizer window. -/
def handle_reset_counts (st : WebState) : WebState :=
  { st with
    circle_count := 0
    square_count := 0
    triangle_count := 0
    current_shape := "none"
    arduino_busy_until := 0
    stab := st.stab.reset }

/-! ## Helper lemmas -/

theorem dequeAppend_no_evict {α : Type} (W : Nat) (l : List α) (x : α)
    (h : l.length + 1 ≤ W) : dequeAppend W l x = l ++ [x] := by
  unfold dequeAppend
  rw [if_neg]
  simp only [List.length_append, List.length_singleton]
  omega

theorem dequeAppend_replicate (W k : Nat) (label : String) (h : k + 1 ≤ W) :
    dequeAppend W (List.replicate k label) label = List.replicate (k + 1) label := by
  rw [dequeAppend_no_evict]
  · exact (List.replicate_succ' k label).symm
  · simpa using h

theorem pyLastSlice_replicate (T : Nat) (label : String) (hT : 1 ≤ T) :
    pyLastSlice (List.replicate T label) T = List.replicate T label := by
  unfold pyLastSlice
  rw [if_neg (by omega)]
  simp

/-- When `add_detection` reports a stable detection, the shape it reports is
exactly the label that was fed in. -/
theorem add_detection_stable_shape (s : DetectionStabilizer) (d : String) (t : ℚ)
    (h : (add_detection s d t).2.1 = true) :
    (add_detection s d t).2 = (true, some d) := by
  simp only [add_detection] at h ⊢
  revert h
  split
  · intro h
    simp at h
  · split
    · intro _
      rfl
    · intro h
      simp at h

/-! ## Claim theorems -/

/-- C5: whenever `lastConfirmed` equals the observed label and
`now - lastConfirmationTime < 6`, `add_detection` never returns a
confirmation, regardless of the window contents. -/
theorem cooldown_blocks_reconfirmation (s : DetectionStabilizer) (label : String)
    (now : ℚ) (h1 : s.last_confirmed = some label)
    (h2 : now - s.confirmation_time < 6) :
    (add_detection s label now).2 = (false, none) := by
  simp only [add_detection]
  rw [if_pos ⟨h1, h2⟩]

/-- Witness for C5: a full window of `"circle"` entries is still rejected
3 seconds after a `"circle"` confirmation. -/
theorem cooldown_blocks_reconfirmation_witness :
    (add_detection ⟨5, 4, ["circle", "circle", "circle", "circle"], some "circle", 0⟩
      "circle" 3).2 = (false, none) :=
  cooldown_blocks_reconfirmation _ _ _ rfl (by norm_num)

/-- C9: `reset` clears only the sliding window; `last_confirmed`,
`confirmation_time` and the window parameters are all preserved, so the
cooldown guard keeps applying across a reset. -/
theorem reset_clears_only_window (s : DetectionStabilizer) :
    s.reset.recent_detections = [] ∧
    s.reset.last_confirmed = s.last_confirmed ∧
    s.reset.confirmation_time = s.confirmation_time ∧
    s.reset.window_size = s.window_size ∧
    s.reset.threshold = s.threshold :=
  ⟨rfl, rfl, rfl, rfl, rfl⟩

/-- C6: a transport-level write error makes `send_to_arduino_simple` return
`False` and leave `arduino_busy_until` exactly as it was before the call. -/
theorem send_write_error_preserves_busy (shape : String) (now busy_until : ℚ) :
    send_to_arduino_simple shape now SendOutcome.writeError busy_until
      = (busy_until, false) := rfl

/-- Counterexample for C2: with the transport unavailable, a successful
simulated `sendCommand("circle")` at `now = 100` leaves `busy_until` at `0`
instead of setting it to `now + 10 = 110`. -/
theorem simulated_send_counterexample :
    send_to_arduino_simple_web false "circle" 100 SendOutcome.ok 0 = (0, true) ∧
    (0 : ℚ) ≠ 100 + 10 :=
  ⟨rfl, by norm_num⟩

/-- C2 (amended): in simulated mode `send_to_arduino_simple` always reports
success without performing any transport I/O, and it leaves `busy_until`
unchanged — the busy-time bookkeeping is skipped, not applied. -/
theorem simulated_send_reports_success (shape : String) (now : ℚ)
    (transport : SendOutcome) (busy_until : ℚ) :
    send_to_arduino_simple_web false shape now transport busy_until
      = (busy_until, true) := rfl

/-- Counterexample for C3: `sendCommand("square", t=100)` sets
`busy_until = 120`, and a subsequent drain that receives `"DONE"` sets
`busy_until` to `0`, not to the poll time `105`. -/
theorem poll_done_counterexample :
    (send_to_arduino_simple "square" 100 SendOutcome.ok 0).1 = 120 ∧
    read_arduino_messages 120 ["DONE"] = 0 ∧ (0 : ℚ) ≠ 105 := by
  refine ⟨?_, rfl, by norm_num⟩
  simp [send_to_arduino_simple]
  norm_num

/-- C3 (amended): draining a line equal to `"DONE"` or `"READY"` sets
`busy_until` to `0` (not to the poll time), which still makes the actuator
immediately ready: `is_arduino_ready` holds at every non-negative time. -/
theorem poll_done_ready_immediate (busy_until : ℚ) (msg : String)
    (hmsg : msg = "DONE" ∨ msg = "READY") (now : ℚ) (hnow : 0 ≤ now) :
    processArduinoLine busy_until msg = 0 ∧
    is_arduino_ready (processArduinoLine busy_until msg) now = true := by
  have h0 : processArduinoLine busy_until msg = 0 := by
    rcases hmsg with h | h <;> subst h <;> rfl
  refine ⟨h0, ?_⟩
  rw [h0]
  simp only [is_arduino_ready, decide_eq_true_eq]
  exact hnow

/-- Witness for C3 (amended), on scenario D's numbers: a `"DONE"` received
while `busy_until = 120` resets it to `0`, and `is_arduino_ready` holds at
`t = 105`. -/
theorem poll_done_ready_immediate_witness :
    processArduinoLine 120 "DONE" = 0 ∧
    is_arduino_ready (processArduinoLine 120 "DONE") 105 = true :=
  poll_done_ready_immediate 120 "DONE" (Or.inl rfl) 105 (by norm_num)

/-- C7: the classifier returns `"unknown"` whenever the perimeter is zero,
and whenever `extent < 0.25` or `solidity < 0.70`, regardless of every
other descriptor field. -/
theorem classify_unknown_on_guards (d : ShapeDescriptors)
    (h : d.perimeter = 0 ∨ d.extent < 1/4 ∨ d.solidity < 7/10) :
    classify_shape_optimized d = "unknown" := by
  unfold classify_shape_optimized
  rcases h with h | h
  · rw [if_pos (Or.inl h)]
  · by_cases h0 : d.perimeter = 0 ∨ d.area < 2500
    · rw [if_pos h0]
    · rw [if_neg h0, if_pos h]

/-- Witness for C7: a large, solid, four-cornered blob with `extent = 0.1`
is rejected as `"unknown"`. -/
theorem classify_unknown_on_guards_witness :
    classify_shape_optimized ⟨3000, 10, 1, 1/2, 1/10, 9/10, 4⟩ = "unknown" :=
  classify_unknown_on_guards _ (Or.inr (Or.inl (by norm_num)))

/-- C8: with the degenerate-geometry guard passing (nonzero perimeter, area
at least 2500), scenario A's descriptors classify to `"triangle"` and
scenario B's descriptors classify to `"square"`. -/
theorem scenario_triangle_and_square (p a : ℚ) (hp : p ≠ 0) (ha : ¬a < 2500) :
    classify_shape_optimized ⟨a, p, 1, 1/2, 1/2, 85/100, 3⟩ = "triangle" ∧
    classify_shape_optimized ⟨a, p, 1, 3/4, 4/5, 9/10, 4⟩ = "square" := by
  have hguard : ¬(p = 0 ∨ a < 2500) := by tauto
  constructor
  · simp only [classify_shape_optimized]
    rw [if_neg hguard]
    norm_num
  · simp only [classify_shape_optimized]
    rw [if_neg hguard]
    norm_num

/-- Witness for C8 at `perimeter = 1`, `area = 2500`. -/
theorem scenario_triangle_and_square_witness :
    classify_shape_optimized ⟨2500, 1, 1, 1/2, 1/2, 85/100, 3⟩ = "triangle" ∧
    classify_shape_optimized ⟨2500, 1, 1, 3/4, 4/5, 9/10, 4⟩ = "square" :=
  scenario_triangle_and_square 1 2500 (by norm_num) (by norm_num)

/-- C10: the cooldown guard compares only the observed label with
`last_confirmed`; a different label is not suppressed, and is confirmed at
once when the window (after appending it) holds at least `threshold`
entries whose trailing `threshold` block is all that label. -/
theorem cooldown_is_per_label (s : DetectionStabilizer) (a b : String) (now : ℚ)
    (hA : s.last_confirmed = some a) (hne : b ≠ a)
    (hlen : (dequeAppend s.window_size s.recent_detections b).length ≥ s.threshold)
    (hall : pyLastSlice (dequeAppend s.window_size s.recent_detections b) s.threshold
      = List.replicate s.threshold b) :
    (add_detection s b now).2 = (true, some b) ∧
    (add_detection s b now).1.last_confirmed = some b ∧
    (add_detection s b now).1.confirmation_time = now := by
  have hcool : ¬(s.last_confirmed = some b ∧ now - s.confirmation_time < 6) := by
    intro hc
    rw [hA] at hc
    exact hne (Option.some.inj hc.1).symm
  have hthr : (dequeAppend s.window_size s.recent_detections b).length ≥ s.threshold ∧
      (pyLastSlice (dequeAppend s.window_size s.recent_detections b) s.threshold).count b
        ≥ s.threshold := by
    refine ⟨hlen, ?_⟩
    rw [hall, List.count_replicate_self]
  simp only [add_detection]
  rw [if_neg hcool, if_pos hthr]
  exact ⟨rfl, rfl, rfl⟩

/-- Witness for C10: one second after a `"square"` confirmation, a fourth
consecutive `"circle"` is confirmed immediately. -/
theorem cooldown_is_per_label_witness :
    (add_detection ⟨5, 4, ["circle", "circle", "circle"], some "square", 100⟩
      "circle" 101).2 = (true, some "circle") ∧
    (add_detection ⟨5, 4, ["circle", "circle", "circle"], some "square", 100⟩
      "circle" 101).1.last_confirmed = some "circle" ∧
    (add_detection ⟨5, 4, ["circle", "circle", "circle"], some "square", 100⟩
      "circle" 101).1.confirmation_time = 101 :=
  cooldown_is_per_label _ "square" "circle" 101 rfl (by decide) (by decide) (by decide)

/-- State of a stabilizer after the same label has been fed `n` times, the
`i`-th call (0-based) happening at time `times i`. -/
def feedStateAfter (s : DetectionStabilizer) (label : String) (times : Nat → ℚ) :
    Nat → DetectionStabilizer
  | 0 => s
  | n + 1 => (add_detection (feedStateAfter s label times n) label (times n)).1

/-- The `(is_stable, confirmed_shape)` pair returned by the `(n+1)`-st call
of that same feeding sequence. -/
def feedResultAt (s : DetectionStabilizer) (label : String) (times : Nat → ℚ)
    (n : Nat) : Bool × Option String :=
  (add_detection (feedStateAfter s label times n) label (times n)).2

theorem add_detection_fresh_step (W T k : Nat) (label : String) (t : ℚ)
    (hkW : k + 1 ≤ W) (hkT : k + 1 < T) :
    add_detection ⟨W, T, List.replicate k label, none, 0⟩ label t
      = (⟨W, T, List.replicate (k + 1) label, none, 0⟩, (false, none)) := by
  simp only [add_detection, dequeAppend_replicate W k label hkW]
  have h1 : ¬((none : Option String) = some label ∧ t - 0 < 6) := by simp
  have h2 : ¬((List.replicate (k + 1) label).length ≥ T ∧
      (pyLastSlice (List.replicate (k + 1) label) T).count label ≥ T) := by
    intro hc
    have hlen := hc.1
    rw [List.length_replicate] at hlen
    omega
  rw [if_neg h1, if_neg h2]

theorem add_detection_confirm_step (W n : Nat) (label : String) (t : ℚ)
    (hnW : n + 1 ≤ W) :
    add_detection ⟨W, n + 1, List.replicate n label, none, 0⟩ label t
      = (⟨W, n + 1, List.replicate (n + 1) label, some label, t⟩,
        (true, some label)) := by
  simp only [add_detection, dequeAppend_replicate W n label hnW]
  have h1 : ¬((none : Option String) = some label ∧ t - 0 < 6) := by simp
  have h2 : (List.replicate (n + 1) label).length ≥ n + 1 ∧
      (pyLastSlice (List.replicate (n + 1) label) (n + 1)).count label ≥ n + 1 := by
    constructor
    · simp
    · rw [pyLastSlice_replicate (n + 1) label (by omega)]
      simp
  rw [if_neg h1, if_pos h2]

theorem feedStateAfter_fresh (W T : Nat) (label : String) (times : Nat → ℚ)
    (hTW : T ≤ W) :
    ∀ k, k < T → feedStateAfter (DetectionStabilizer.mkFresh W T) label times k
      = ⟨W, T, List.replicate k label, none, 0⟩ := by
  intro k
  induction k with
  | zero => intro _; rfl
  | succ n ih =>
    intro hk
    have hn : n < T := Nat.lt_of_succ_lt hk
    simp only [feedStateAfter]
    rw [ih hn, add_detection_fresh_step W T n label (times n) (by omega) hk]

/-- C4: starting from a fresh stabilizer with threshold `T` (with
`1 ≤ T ≤ window_size`), feeding the same label `T` consecutive times returns
no-confirmation on each of the first `T - 1` calls and returns the
confirmation `(true, label)` exactly on the `T`-th call, at which point
`last_confirmed` becomes the label and `confirmation_time` becomes that
call's timestamp. -/
theorem fresh_stabilizer_confirms_on_Tth_call (W T : Nat) (label : String)
    (times : Nat → ℚ) (hT1 : 1 ≤ T) (hTW : T ≤ W) :
    (∀ k, k + 1 < T →
      feedResultAt (DetectionStabilizer.mkFresh W T) label times k = (false, none)) ∧
    feedResultAt (DetectionStabilizer.mkFresh W T) label times (T - 1)
      = (true, some label) ∧
    (feedStateAfter (DetectionStabilizer.mkFresh W T) label times T).last_confirmed
      = some label ∧
    (feedStateAfter (DetectionStabilizer.mkFresh W T) label times T).confirmation_time
      = times (T - 1) := by
  obtain ⟨n, rfl⟩ : ∃ n, T = n + 1 := ⟨T - 1, by omega⟩
  have hstate := feedStateAfter_fresh W (n + 1) label times hTW
  have hfinal : feedStateAfter (DetectionStabilizer.mkFresh W (n + 1)) label times (n + 1)
      = ⟨W, n + 1, List.replicate (n + 1) label, some label, times n⟩ := by
    simp only [feedStateAfter]
    rw [hstate n (by omega), add_detection_confirm_step W n label (times n) hTW]
  refine ⟨?_, ?_, ?_, ?_⟩
  · intro k hk
    unfold feedResultAt
    rw [hstate k (by omega),
      add_detection_fresh_step W (n + 1) k label (times k) (by omega) hk]
  · unfold feedResultAt
    simp only [Nat.add_sub_cancel]
    rw [hstate n (by omega), add_detection_confirm_step W n label (times n) hTW]
  · rw [hfinal]
  · rw [hfinal]
    simp only [Nat.add_sub_cancel]

/-- Witness for C4 with the default parameters `W = 5`, `T = 4`: the first
call reports no-confirmation and the fourth call confirms `"circle"`. -/
theorem fresh_stabilizer_confirms_witness :
    feedResultAt (DetectionStabilizer.mkFresh 5 4) "circle" (fun i => (i : ℚ)) 0
      = (false, none) ∧
    feedResultAt (DetectionStabilizer.mkFresh 5 4) "circle" (fun i => (i : ℚ)) 3
      = (true, some "circle") :=
  ⟨(fresh_stabilizer_confirms_on_Tth_call 5 4 "circle" (fun i => (i : ℚ))
      (by norm_num) (by norm_num)).1 0 (by norm_num),
   (fresh_stabilizer_confirms_on_Tth_call 5 4 "circle" (fun i => (i : ℚ))
      (by norm_num) (by norm_num)).2.1⟩

theorem update_counts_circle (st : WebState) :
    update_shape_count st "circle"
      = { st with circle_count := st.circle_count + 1, current_shape := "circle" } := by
  simp [update_shape_count]

theorem update_counts_square (st : WebState) :
    update_shape_count st "square"
      = { st with square_count := st.square_count + 1, current_shape := "square" } := by
  simp [update_shape_count]

theorem update_counts_triangle (st : WebState) :
    update_shape_count st "triangle"
      = { st with triangle_count := st.triangle_count + 1, current_shape := "triangle" } := by
  simp [update_shape_count]

theorem getCount_update_self (st : WebState) (shape : String)
    (hshape : shape = "circle" ∨ shape = "square" ∨ shape = "triangle") :
    getCount (update_shape_count st shape) shape = getCount st shape + 1 := by
  rcases hshape with h | h | h <;> subst h <;> simp [update_shape_count, getCount]

theorem getCount_update_other (st : WebState) (shape other : String)
    (hshape : shape = "circle" ∨ shape = "square" ∨ shape = "triangle")
    (hother : other ≠ shape) :
    getCount (update_shape_count st shape) other = getCount st other := by
  rcases hshape with h | h | h <;> subst h <;> simp [update_shape_count, getCount, hother]

/-- When `add_detection` reports no stable detection, the reported shape is
`none`. -/
theorem add_detection_unstable_shape (s : DetectionStabilizer) (d : String) (t : ℚ)
    (h : (add_detection s d t).2.1 = false) :
    (add_detection s d t).2 = (false, none) := by
  simp only [add_detection] at h ⊢
  revert h
  split
  · intro _
    rfl
  · split
    · intro h
      simp at h
    · intro _
      rfl

theorem getCount_stab_update (st : WebState) (x : DetectionStabilizer) (lab : String) :
    getCount { st with stab := x } lab = getCount st lab := rfl

theorem getCount_confirmed_branch (st1 : WebState) (confirmed lab : String) (now : ℚ)
    (sc : Bool) (tr : SendOutcome) :
    getCount (confirmed_branch st1 confirmed now sc tr) lab
      = getCount (update_shape_count st1 confirmed) lab := by
  simp only [confirmed_branch]
  split
  · rfl
  · rfl

theorem detection_tick_stable_eq (st : WebState) (shape : String) (now : ℚ)
    (sc : Bool) (tr : SendOutcome)
    (hshape : shape = "circle" ∨ shape = "triangle" ∨ shape = "square")
    (h : (add_detection st.stab shape now).2.1 = true) :
    detection_tick st shape now sc tr
      = confirmed_branch { st with stab := (add_detection st.stab shape now).1 }
          shape now sc tr := by
  have hr := add_detection_stable_shape st.stab shape now h
  simp only [detection_tick]
  rw [if_pos hshape, hr]

theorem detection_tick_unstable_eq (st : WebState) (shape : String) (now : ℚ)
    (sc : Bool) (tr : SendOutcome)
    (hshape : shape = "circle" ∨ shape = "triangle" ∨ shape = "square")
    (h : (add_detection st.stab shape now).2.1 = false) :
    detection_tick st shape now sc tr
      = { st with stab := (add_detection st.stab shape now).1 } := by
  have hr := add_detection_unstable_shape st.stab shape now h
  simp only [detection_tick]
  rw [if_pos hshape, hr]

/-- Counterexample for C1: a fourth consecutive `"circle"` is confirmed, the
send fails with a transport write error (the send reports `False`), yet the
circle count still goes from `0` to `1` — the count update precedes the
send and is not rolled back. -/
theorem count_increments_despite_send_failure :
    (send_to_arduino_simple_web true "circle" 10 SendOutcome.writeError 0).2 = false ∧
    (detection_tick
        ⟨0, 0, 0, "none", ⟨5, 4, ["circle", "circle", "circle"], none, 0⟩, 0, 0⟩
        "circle" 10 true SendOutcome.writeError).circle_count = 1 :=
  ⟨rfl, rfl⟩

/-- C1 (amended): per confirmed detection of a tracked shape, that shape's
count increments by exactly 1 — regardless of whether the subsequent send
reports success — and every other count is unchanged; an unconfirmed
observation changes no count; the explicit reset command sets all three
counts to 0.  (Counts are thus never decremented outside reset.) -/
theorem counts_per_confirmed_detection (st : WebState) (shape : String) (now : ℚ)
    (sc : Bool) (tr : SendOutcome)
    (hshape : shape = "circle" ∨ shape = "triangle" ∨ shape = "square") :
    ((add_detection st.stab shape now).2.1 = true →
      getCount (detection_tick st shape now sc tr) shape = getCount st shape + 1 ∧
      ∀ other : String, other ≠ shape →
        getCount (detection_tick st shape now sc tr) other = getCount st other) ∧
    ((add_detection st.stab shape now).2.1 = false →
      ∀ lab : String, getCount (detection_tick st shape now sc tr) lab = getCount st lab) ∧
    getCount (handle_reset_counts st) "circle" = 0 ∧
    getCount (handle_reset_counts st) "square" = 0 ∧
    getCount (handle_reset_counts st) "triangle" = 0 := by
  have hshape2 : shape = "circle" ∨ shape = "square" ∨ shape = "triangle" := by tauto
  refine ⟨?_, ?_, ?_, ?_, ?_⟩
  · intro h
    rw [detection_tick_stable_eq st shape now sc tr hshape h]
    constructor
    · rw [getCount_confirmed_branch, getCount_update_self _ shape hshape2,
        getCount_stab_update]
    · intro other hother
      rw [getCount_confirmed_branch, getCount_update_other _ shape other hshape2 hother,
        getCount_stab_update]
  · intro h lab
    rw [detection_tick_unstable_eq st shape now sc tr hshape h, getCount_stab_update]
  · rfl
  · rfl
  · rfl

/-- Witness for C1 (amended): at a concrete state two observations short of
nothing — three `"circle"` entries buffered — the fourth `"circle"`
confirmation takes the circle count from 2 to 3 even though the system is in
simulated mode. -/
theorem counts_per_confirmed_detection_witness :
    getCount (detection_tick
        ⟨2, 0, 0, "none", ⟨5, 4, ["circle", "circle", "circle"], none, 0⟩, 0, 0⟩
        "circle" 10 false SendOutcome.ok) "circle"
      = getCount ⟨2, 0, 0, "none", ⟨5, 4, ["circle", "circle", "circle"], none, 0⟩, 0, 0⟩
          "circle" + 1 :=
  ((counts_per_confirmed_detection
      ⟨2, 0, 0, "none", ⟨5, 4, ["circle", "circle", "circle"], none, 0⟩, 0, 0⟩
      "circle" 10 false SendOutcome.ok (Or.inl rfl)).1 (by decide)).1
